import Mathlib

/-!
Shallow embedding of `torchx/components/base/roles.py` (the builder
`create_torch_dist_role`) together with the external collaborators it uses
(`Role`, `Container`, `RetryPolicy`, `macros` from `torchx.specs.api`, and the
POSIX behaviour of `os.path.isabs` / `os.path.join`), and theorems settling the
specification claims about it.
-/

namespace TorchX

/-- A Python value as it can occur in `launch_kwargs`: the code distinguishes
exactly whether `isinstance(val, bool)` holds; every non-boolean value is only
ever used through `str(val)`.  We model booleans, (unbounded) integers and
strings, which covers every value kind exercised by the spec's examples. -/
inductive PyVal where
  | pybool (b : Bool)
  | pyint (n : Int)
  | pystr (s : String)
deriving DecidableEq, Repr

/-- Python's `str()` on the modelled values (`str(True) = "True"`,
`str(3) = "3"`, `str("s") = "s"`). -/
def PyVal.str : PyVal → String
  | .pybool b => if b then "True" else "False"
  | .pyint n => toString n
  | .pystr s => s

/-- Modelled from the spec: the lazily-resolved application-id macro token
(the external `torchx.specs.api` `app_id` placeholder, not under `src/`),
treated as an opaque literal sentinel string passed through by the builder. -/
def app_id : String := "${app_id}"

/-- Modelled from the spec: the image-root macro token (the external
`torchx.specs.api` image-root placeholder, not under `src/`), a path-prefix
sentinel string. -/
def img_root : String := "${img_root}"

/-- Python `str.startswith`, modelled on the character sequence of the
string so that it evaluates by kernel reduction. -/
def strStartsWith (s p : String) : Bool :=
  p.data.isPrefixOf s.data

/-- Python `str.endswith`, modelled on the character sequence. -/
def strEndsWith (s p : String) : Bool :=
  p.data.isSuffixOf s.data

/-- POSIX `os.path.isabs`: a path is absolute iff it starts with `/`. -/
def os_path_isabs (p : String) : Bool :=
  strStartsWith p "/"

/-- Two-argument POSIX `os.path.join`: if the second component is absolute it
wins; otherwise the components are concatenated, inserting a separator unless
the first component is empty or already ends with one. -/
def os_path_join (a b : String) : String :=
  if strStartsWith b "/" then b
  else if a = "" || strEndsWith a "/" then a ++ b
  else a ++ "/" ++ b

/-- `launch_kwargs`: a Python `dict` with string keys, modelled as an
insertion-ordered association list (Python dicts iterate in insertion order). -/
abbrev Kwargs := List (String × PyVal)

/-- Whether a key is present in the mapping (`k in d` for a Python dict). -/
def hasKey (kw : Kwargs) (k : String) : Bool :=
  kw.any (fun p => p.1 = k)

/-- Python `dict.setdefault(k, v)`: if `k` is already present the mapping is
unchanged; otherwise `(k, v)` is inserted at the end of the iteration order. -/
def setdefault (kw : Kwargs) (k : String) (v : PyVal) : Kwargs :=
  if hasKey kw k then kw else kw ++ [(k, v)]

/-- Modelled from the spec: the opaque resource descriptor `Container` of the
external `torchx.specs.api` (not under `src/`); passed through unchanged. -/
structure Container where
  image : String
deriving DecidableEq, Repr

/-- Modelled from the spec: the `RetryPolicy` enumeration of the external
`torchx.specs.api` (not under `src/`); at least `APPLICATION` exists. -/
inductive RetryPolicy where
  | REPLICA
  | APPLICATION
deriving DecidableEq, Repr

/-- Modelled from the spec: the `Role` descriptor of the external
`torchx.specs.api` (not under `src/`): name, run command (program +
argument sequence + environment mapping), attached container, replica count,
retry policy / max-retries pair. -/
structure Role where
  name : String
  entrypoint : String := ""
  args : List String := []
  env : List (String × String) := []
  container : Option Container := none
  num_replicas : Int := 1
  max_retries : Int := 0
  retry_policy : RetryPolicy := RetryPolicy.APPLICATION
deriving DecidableEq, Repr

/-- Modelled from the spec: `Role.runs(program, *args, **envs)` attaches the
run command and returns the role for fluent chaining. -/
def Role.runs (r : Role) (entrypoint : String) (args : List String)
    (env : List (String × String)) : Role :=
  { r with entrypoint := entrypoint, args := args, env := env }

/-- Modelled from the spec: `Role.on(container)` attaches the container. -/
def Role.on (r : Role) (c : Container) : Role :=
  { r with container := some c }

/-- Modelled from the spec: `Role.replicas(n)` sets the replica count. -/
def Role.replicas (r : Role) (n : Int) : Role :=
  { r with num_replicas := n }

/-- Modelled from the spec: `Role.with_retry_policy(policy, max_retries)` sets
the retry policy and the maximum number of retries. -/
def Role.with_retry_policy (r : Role) (p : RetryPolicy) (m : Int) : Role :=
  { r with retry_policy := p, max_retries := m }

/-- The tokens the loop body of `create_torch_dist_role` appends to `args` for
one `(arg, val)` pair of `launch_kwargs`: a boolean value is treated as a flag
(`--arg` if true, nothing if false); any other value yields `--arg`
followed by `str(val)`. -/
def kwargTokens (kv : String × PyVal) : List String :=
  match kv.2 with
  | PyVal.pybool b => if b then ["--" ++ kv.1] else []
  | v => ["--" ++ kv.1, v.str]

/-- All tokens contributed by iterating a kwargs mapping in insertion order
(the `for (arg, val) in launch_kwargs.items()` loop, started from an empty
accumulator). -/
def flagsOf (kw : Kwargs) : List String :=
  kw.foldl (fun acc kv => acc ++ kwargTokens kv) []

/-- The three `setdefault` calls of `create_torch_dist_role`, in source
order: `rdzv_backend = "etcd"`, `rdzv_id = macros.app_id`, `role = name`. -/
def withDefaults (kw : Kwargs) (name : String) : Kwargs :=
  setdefault
    (setdefault (setdefault kw "rdzv_backend" (PyVal.pystr "etcd"))
      "rdzv_id" (PyVal.pystr app_id))
    "role" (PyVal.pystr name)

/-- The entrypoint rewrite of `create_torch_dist_role`: join with the
image-root macro only if the entrypoint is not an absolute path and does not
already start with the image-root token. -/
def normalizeEntrypoint (entrypoint : String) : String :=
  if !os_path_isabs entrypoint && !strStartsWith entrypoint img_root then
    os_path_join img_root entrypoint
  else entrypoint

/-- Embedding of `create_torch_dist_role` from
`src/torchx/components/base/roles.py`.  `script_args` and `script_envs` are
`Option`-valued to model the Python `None` defaults (`script_args or []`,
`script_envs or {}`); `num_replicas` and `max_retries` are `Int` since Python
integers are unbounded and the function performs no validation. -/
def create_torch_dist_role (name : String) (container : Container)
    (entrypoint : String) (script_args : Option (List String))
    (script_envs : Option (List (String × String))) (num_replicas : Int)
    (max_retries : Int) (retry_policy : RetryPolicy)
    (launch_kwargs : Kwargs) : Role :=
  let script_args := script_args.getD []
  let script_envs := script_envs.getD []
  let entrypoint_override := "python"
  let args : List String := ["-m", "torch.distributed.launch"]
  let launch_kwargs := setdefault launch_kwargs "rdzv_backend" (PyVal.pystr "etcd")
  let launch_kwargs := setdefault launch_kwargs "rdzv_id" (PyVal.pystr app_id)
  let launch_kwargs := setdefault launch_kwargs "role" (PyVal.pystr name)
  let args := launch_kwargs.foldl (fun acc kv => acc ++ kwargTokens kv) args
  let entrypoint := normalizeEntrypoint entrypoint
  let args := args ++ [entrypoint] ++ script_args
  (((({ name := name : Role }).runs entrypoint_override args script_envs).on
      container).replicas num_replicas).with_retry_policy retry_policy max_retries

/-! ### Helper lemmas shared by the claim theorems -/

theorem foldl_tokens_eq (kw : Kwargs) (init : List String) :
    kw.foldl (fun acc kv => acc ++ kwargTokens kv) init = init ++ flagsOf kw := by
  induction kw generalizing init with
  | nil => simp [flagsOf]
  | cons hd tl ih =>
    simp only [flagsOf, List.foldl_cons, List.nil_append]
    rw [ih (init ++ kwargTokens hd), ih (kwargTokens hd), List.append_assoc]

theorem flagsOf_cons (kv : String × PyVal) (kw : Kwargs) :
    flagsOf (kv :: kw) = kwargTokens kv ++ flagsOf kw := by
  simp only [flagsOf, List.foldl_cons, List.nil_append]
  exact foldl_tokens_eq kw (kwargTokens kv)

theorem flagsOf_append (a b : Kwargs) :
    flagsOf (a ++ b) = flagsOf a ++ flagsOf b := by
  simp only [flagsOf, List.foldl_append]
  exact foldl_tokens_eq b (a.foldl (fun acc kv => acc ++ kwargTokens kv) [])

/-- Decomposition of the argument list built by `create_torch_dist_role`:
the fixed two-token module prefix, the flag tokens of the defaulted kwargs in
iteration order, the normalized entrypoint, and the script args. -/
theorem create_args_eq (name : String) (container : Container) (entrypoint : String)
    (script_args : Option (List String)) (script_envs : Option (List (String × String)))
    (num_replicas : Int) (max_retries : Int) (retry_policy : RetryPolicy)
    (launch_kwargs : Kwargs) :
    (create_torch_dist_role name container entrypoint script_args script_envs
        num_replicas max_retries retry_policy launch_kwargs).args
      = ["-m", "torch.distributed.launch"]
        ++ flagsOf (withDefaults launch_kwargs name)
        ++ [normalizeEntrypoint entrypoint]
        ++ script_args.getD [] := by
  simp only [create_torch_dist_role, withDefaults, Role.runs, Role.on, Role.replicas,
    Role.with_retry_policy, foldl_tokens_eq, List.append_assoc]

/-- The fields of the role other than the argument list are direct
pass-throughs of the inputs. -/
theorem create_fields_eq (name : String) (container : Container) (entrypoint : String)
    (script_args : Option (List String)) (script_envs : Option (List (String × String)))
    (num_replicas : Int) (max_retries : Int) (retry_policy : RetryPolicy)
    (launch_kwargs : Kwargs) :
    (create_torch_dist_role name container entrypoint script_args script_envs
        num_replicas max_retries retry_policy launch_kwargs).name = name
    ∧ (create_torch_dist_role name container entrypoint script_args script_envs
        num_replicas max_retries retry_policy launch_kwargs).entrypoint = "python"
    ∧ (create_torch_dist_role name container entrypoint script_args script_envs
        num_replicas max_retries retry_policy launch_kwargs).env = script_envs.getD []
    ∧ (create_torch_dist_role name container entrypoint script_args script_envs
        num_replicas max_retries retry_policy launch_kwargs).container = some container
    ∧ (create_torch_dist_role name container entrypoint script_args script_envs
        num_replicas max_retries retry_policy launch_kwargs).num_replicas = num_replicas
    ∧ (create_torch_dist_role name container entrypoint script_args script_envs
        num_replicas max_retries retry_policy launch_kwargs).max_retries = max_retries
    ∧ (create_torch_dist_role name container entrypoint script_args script_envs
        num_replicas max_retries retry_policy launch_kwargs).retry_policy = retry_policy := by
  simp [create_torch_dist_role, Role.runs, Role.on, Role.replicas, Role.with_retry_policy]

/-- The three `setdefault` calls amount to appending, after the caller's
entries, exactly those of the three default pairs whose key is absent, in the
fixed order rdzv_backend, rdzv_id, role. -/
theorem setdefault_eq (kw : Kwargs) (k : String) (v : PyVal) :
    setdefault kw k v = kw ++ (if hasKey kw k then [] else [(k, v)]) := by
  unfold setdefault
  split <;> simp_all

theorem hasKey_append (a b : Kwargs) (k : String) :
    hasKey (a ++ b) k = (hasKey a k || hasKey b k) := by
  simp [hasKey, List.any_append]

theorem hasKey_singleton (k' : String) (v : PyVal) (k : String) :
    hasKey [(k', v)] k = decide (k' = k) := by
  simp [hasKey]

theorem withDefaults_eq_append_filter (kw : Kwargs) (name : String) :
    withDefaults kw name
      = kw ++ ([("rdzv_backend", PyVal.pystr "etcd"), ("rdzv_id", PyVal.pystr app_id),
          ("role", PyVal.pystr name)].filter (fun p => !hasKey kw p.1)) := by
  unfold withDefaults
  by_cases h1 : hasKey kw "rdzv_backend"
  <;> by_cases h2 : hasKey kw "rdzv_id"
  <;> by_cases h3 : hasKey kw "role"
  <;> simp [setdefault_eq, hasKey_append, hasKey_singleton, h1, h2, h3]
  all_goals decide

theorem lookup_append_left {α β : Type} [BEq α] (k : α) (v : β)
    (a b : List (α × β)) (h : List.lookup k a = some v) :
    List.lookup k (a ++ b) = some v := by
  induction a with
  | nil => simp [List.lookup] at h
  | cons hd tl ih =>
    rw [List.cons_append]
    rw [List.lookup] at h ⊢
    cases hk : (k == hd.1) with
    | true => simpa [hk] using h
    | false =>
      rw [hk] at h
      simpa [hk] using ih h

/-! ### Claim theorems -/

/-- C1: for every input, the built argument sequence is exactly the fixed
two-token prefix `-m torch.distributed.launch`, then the flag tokens derived
from `launch_kwargs` plus the three injected defaults, then the (normalized)
entrypoint token, then the script args verbatim and in order as the final
tokens; in particular all flag tokens precede the entrypoint and the first two
tokens are the two literals. -/
theorem args_shape_invariant (name : String) (container : Container)
    (entrypoint : String) (script_args : Option (List String))
    (script_envs : Option (List (String × String))) (num_replicas : Int)
    (max_retries : Int) (retry_policy : RetryPolicy) (launch_kwargs : Kwargs) :
    (create_torch_dist_role name container entrypoint script_args script_envs
        num_replicas max_retries retry_policy launch_kwargs).args
      = ["-m", "torch.distributed.launch"]
        ++ flagsOf (withDefaults launch_kwargs name)
        ++ [normalizeEntrypoint entrypoint]
        ++ script_args.getD []
    ∧ ((create_torch_dist_role name container entrypoint script_args script_envs
        num_replicas max_retries retry_policy launch_kwargs).args).take 2
      = ["-m", "torch.distributed.launch"] := by
  refine ⟨create_args_eq name container entrypoint script_args script_envs
    num_replicas max_retries retry_policy launch_kwargs, ?_⟩
  rw [create_args_eq]
  rfl

/-- C2: the three defaults are merged with setdefault semantics — an explicit
value for rdzv_backend, rdzv_id or role is never overridden, the caller's
entries keep their original relative order as a prefix, and exactly the
missing defaults are appended after them in the fixed order
rdzv_backend, rdzv_id, role. -/
theorem defaults_setdefault_semantics (kw : Kwargs) (name : String) :
    withDefaults kw name
      = kw ++ ([("rdzv_backend", PyVal.pystr "etcd"), ("rdzv_id", PyVal.pystr app_id),
          ("role", PyVal.pystr name)].filter (fun p => !hasKey kw p.1))
    ∧ ∀ k v, List.lookup k kw = some v →
        List.lookup k (withDefaults kw name) = some v := by
  refine ⟨withDefaults_eq_append_filter kw name, fun k v h => ?_⟩
  rw [withDefaults_eq_append_filter kw name]
  exact lookup_append_left k v _ _ h

/-- Witness for C2 at a concrete input: an explicitly supplied role value
survives the default merge unchanged. -/
theorem defaults_setdefault_semantics_witness :
    List.lookup "role" (withDefaults [("role", PyVal.pystr "x")] "n")
      = some (PyVal.pystr "x") :=
  (defaults_setdefault_semantics [("role", PyVal.pystr "x")] "n").2
    "role" (PyVal.pystr "x") (by decide)

/-- C3: a kwarg whose value is exactly boolean emits the single token --key
when true and nothing when false; any non-boolean value (integers, including
the truthy 1, and strings) emits exactly the two tokens --key and str(value).
Stated on the per-pair emission inside the iteration over the kwargs list. -/
theorem kwarg_flag_emission (k : String) (n : Int) (s : String) (rest : Kwargs) :
    flagsOf ((k, PyVal.pybool true) :: rest) = ["--" ++ k] ++ flagsOf rest
    ∧ flagsOf ((k, PyVal.pybool false) :: rest) = flagsOf rest
    ∧ flagsOf ((k, PyVal.pyint n) :: rest) = ["--" ++ k, toString n] ++ flagsOf rest
    ∧ flagsOf ((k, PyVal.pystr s) :: rest) = ["--" ++ k, s] ++ flagsOf rest
    ∧ kwargTokens (k, PyVal.pyint 1) = ["--" ++ k, "1"] := by
  refine ⟨?_, ?_, ?_, ?_, rfl⟩ <;> rw [flagsOf_cons] <;> rfl

/-- C4: the entrypoint is joined under the image-root macro exactly when it is
neither an absolute path nor already prefixed with the image-root token, and
is passed through unmodified otherwise; the token placed between the flags and
the script args in the built argument list is exactly this normalized
entrypoint. -/
theorem entrypoint_normalization (ep : String) :
    (os_path_isabs ep = false → strStartsWith ep img_root = false →
      normalizeEntrypoint ep = os_path_join img_root ep)
    ∧ (os_path_isabs ep = true → normalizeEntrypoint ep = ep)
    ∧ (strStartsWith ep img_root = true → normalizeEntrypoint ep = ep)
    ∧ ∀ (name : String) (container : Container) (script_args : Option (List String))
        (script_envs : Option (List (String × String))) (num_replicas : Int)
        (max_retries : Int) (retry_policy : RetryPolicy) (launch_kwargs : Kwargs),
        (create_torch_dist_role name container ep script_args script_envs
            num_replicas max_retries retry_policy launch_kwargs).args
          = ["-m", "torch.distributed.launch"]
            ++ flagsOf (withDefaults launch_kwargs name)
            ++ [normalizeEntrypoint ep]
            ++ script_args.getD [] := by
  refine ⟨?_, ?_, ?_, ?_⟩
  · intro h1 h2
    simp [normalizeEntrypoint, h1, h2]
  · intro h1
    simp [normalizeEntrypoint, h1]
  · intro h2
    simp [normalizeEntrypoint, h2]
  · intro name container script_args script_envs num_replicas max_retries retry_policy kw
    exact create_args_eq name container ep script_args script_envs
      num_replicas max_retries retry_policy kw

/-- Witness for C4 at the spec's concrete inputs: a relative entrypoint is
joined under the image root, an absolute one is unchanged. -/
theorem entrypoint_normalization_witness :
    normalizeEntrypoint "train.py" = "${img_root}/train.py"
    ∧ normalizeEntrypoint "/abs/train.py" = "/abs/train.py" := by
  constructor
  · have h := (entrypoint_normalization "train.py").1 (by decide) (by decide)
    rw [h]
    decide
  · exact (entrypoint_normalization "/abs/train.py").2.1 (by decide)

/-- C5: the end-to-end example — building the trainer role with the
documented kwargs yields exactly the documented command line, replica count
and retry configuration. -/
theorem end_to_end_example (c : Container) :
    create_torch_dist_role "trainer" c "my_train_script.py"
        (some ["--a", "foo"]) none 4 1 RetryPolicy.APPLICATION
        [("nproc_per_node", PyVal.pyint 8), ("nnodes", PyVal.pystr "2:4"),
          ("max_restarts", PyVal.pyint 3)]
      = { name := "trainer",
          entrypoint := "python",
          args := ["-m", "torch.distributed.launch", "--nproc_per_node", "8",
            "--nnodes", "2:4", "--max_restarts", "3", "--rdzv_backend", "etcd",
            "--rdzv_id", "${app_id}", "--role", "trainer",
            "${img_root}/my_train_script.py", "--a", "foo"],
          env := [],
          container := some c,
          num_replicas := 4,
          max_retries := 1,
          retry_policy := RetryPolicy.APPLICATION } := rfl

/-- C6 counterexample: with empty launch_kwargs the default flags are appended
in the order rdzv_backend, rdzv_id, role — so the claimed fixed order
"--rdzv_backend first, then --role, then --rdzv_id" is false: --role occurs
after --rdzv_id in the built argument list. -/
theorem default_flags_claimed_order_counterexample :
    "--role" ∈ (create_torch_dist_role "n" (Container.mk "img") "/e" none none
        1 0 RetryPolicy.APPLICATION []).args
    ∧ "--rdzv_id" ∈ (create_torch_dist_role "n" (Container.mk "img") "/e" none none
        1 0 RetryPolicy.APPLICATION []).args
    ∧ ¬ List.indexOf "--role" ((create_torch_dist_role "n" (Container.mk "img") "/e"
          none none 1 0 RetryPolicy.APPLICATION []).args)
        < List.indexOf "--rdzv_id" ((create_torch_dist_role "n" (Container.mk "img") "/e"
          none none 1 0 RetryPolicy.APPLICATION []).args) := by
  decide

/-- C6 amended: for every launch_kwargs containing none of the keys
rdzv_backend, rdzv_id, role, the built flags include --rdzv_backend etcd, an
--rdzv_id flag with the app-id value, and --role name, appended after all
flags of the explicitly supplied kwargs in the fixed order
rdzv_backend first, then rdzv_id, then role. -/
theorem default_flags_appended_in_order (name : String) (container : Container)
    (entrypoint : String) (script_args : Option (List String))
    (script_envs : Option (List (String × String))) (num_replicas : Int)
    (max_retries : Int) (retry_policy : RetryPolicy) (kw : Kwargs)
    (h1 : hasKey kw "rdzv_backend" = false) (h2 : hasKey kw "rdzv_id" = false)
    (h3 : hasKey kw "role" = false) :
    (create_torch_dist_role name container entrypoint script_args script_envs
        num_replicas max_retries retry_policy kw).args
      = ["-m", "torch.distributed.launch"]
        ++ flagsOf kw
        ++ ["--rdzv_backend", "etcd", "--rdzv_id", app_id, "--role", name]
        ++ [normalizeEntrypoint entrypoint]
        ++ script_args.getD [] := by
  have hd : withDefaults kw name
      = kw ++ [("rdzv_backend", PyVal.pystr "etcd"), ("rdzv_id", PyVal.pystr app_id),
          ("role", PyVal.pystr name)] := by
    rw [withDefaults_eq_append_filter]
    simp [h1, h2, h3]
  have hf : flagsOf [("rdzv_backend", PyVal.pystr "etcd"), ("rdzv_id", PyVal.pystr app_id),
      ("role", PyVal.pystr name)]
      = ["--rdzv_backend", "etcd", "--rdzv_id", app_id, "--role", name] := rfl
  rw [create_args_eq, hd, flagsOf_append, hf]
  simp only [List.append_assoc]

/-- Witness for C6 amended at a concrete input: one explicit kwarg, all three
defaults appended after it in the order rdzv_backend, rdzv_id, role. -/
theorem default_flags_appended_in_order_witness :
    (create_torch_dist_role "trainer" (Container.mk "img") "/e" none none
        1 0 RetryPolicy.APPLICATION [("nnodes", PyVal.pystr "2:4")]).args
      = ["-m", "torch.distributed.launch", "--nnodes", "2:4", "--rdzv_backend",
          "etcd", "--rdzv_id", "${app_id}", "--role", "trainer", "/e"] := by
  rw [default_flags_appended_in_order "trainer" (Container.mk "img") "/e" none none
    1 0 RetryPolicy.APPLICATION [("nnodes", PyVal.pystr "2:4")]
    (by decide) (by decide) (by decide)]
  rfl

/-- C7: the returned role is named name, its program is the literal "python",
its argument list is exactly the built sequence, its environment is
script_envs passed through unchanged (empty when omitted), its container,
replica count, retry policy and max retries are the given inputs, and
omitting script_args or script_envs behaves identically to passing an empty
sequence or mapping. -/
theorem role_assembly (name : String) (container : Container) (entrypoint : String)
    (script_args : List String) (script_envs : List (String × String))
    (num_replicas : Int) (max_retries : Int) (retry_policy : RetryPolicy)
    (launch_kwargs : Kwargs) :
    (create_torch_dist_role name container entrypoint (some script_args)
        (some script_envs) num_replicas max_retries retry_policy launch_kwargs).name
      = name
    ∧ (create_torch_dist_role name container entrypoint (some script_args)
        (some script_envs) num_replicas max_retries retry_policy launch_kwargs).entrypoint
      = "python"
    ∧ (create_torch_dist_role name container entrypoint (some script_args)
        (some script_envs) num_replicas max_retries retry_policy launch_kwargs).args
      = ["-m", "torch.distributed.launch"]
        ++ flagsOf (withDefaults launch_kwargs name)
        ++ [normalizeEntrypoint entrypoint]
        ++ script_args
    ∧ (create_torch_dist_role name container entrypoint (some script_args)
        (some script_envs) num_replicas max_retries retry_policy launch_kwargs).env
      = script_envs
    ∧ (create_torch_dist_role name container entrypoint (some script_args)
        (some script_envs) num_replicas max_retries retry_policy launch_kwargs).container
      = some container
    ∧ (create_torch_dist_role name container entrypoint (some script_args)
        (some script_envs) num_replicas max_retries retry_policy launch_kwargs).num_replicas
      = num_replicas
    ∧ (create_torch_dist_role name container entrypoint (some script_args)
        (some script_envs) num_replicas max_retries retry_policy launch_kwargs).retry_policy
      = retry_policy
    ∧ (create_torch_dist_role name container entrypoint (some script_args)
        (some script_envs) num_replicas max_retries retry_policy launch_kwargs).max_retries
      = max_retries
    ∧ create_torch_dist_role name container entrypoint none none
        num_replicas max_retries retry_policy launch_kwargs
      = create_torch_dist_role name container entrypoint (some []) (some [])
        num_replicas max_retries retry_policy launch_kwargs := by
  obtain ⟨e1, e2, e3, e4, e5, e6, e7⟩ := create_fields_eq name container entrypoint
    (some script_args) (some script_envs) num_replicas max_retries retry_policy launch_kwargs
  exact ⟨e1, e2, create_args_eq name container entrypoint (some script_args)
    (some script_envs) num_replicas max_retries retry_policy launch_kwargs,
    e3, e4, e5, e7, e6, rfl⟩

/-- C8: the function is total over its documented input domain and performs
no validation — every input, including a negative replica count or retry
count, produces a role that passes the inputs through unchanged; no input is
ever rejected. -/
theorem total_no_validation (name : String) (container : Container)
    (entrypoint : String) (script_args : Option (List String))
    (script_envs : Option (List (String × String))) (retry_policy : RetryPolicy)
    (launch_kwargs : Kwargs) (num_replicas max_retries : Int) :
    (create_torch_dist_role name container entrypoint script_args script_envs
        num_replicas max_retries retry_policy launch_kwargs).num_replicas
      = num_replicas
    ∧ (create_torch_dist_role name container entrypoint script_args script_envs
        num_replicas max_retries retry_policy launch_kwargs).max_retries
      = max_retries
    ∧ (create_torch_dist_role name container entrypoint script_args script_envs
        num_replicas max_retries retry_policy launch_kwargs).name = name
    ∧ (create_torch_dist_role name container entrypoint script_args script_envs
        (-5) (-7) retry_policy launch_kwargs).num_replicas = -5 := by
  obtain ⟨e1, _, _, _, e5, e6, _⟩ := create_fields_eq name container entrypoint
    script_args script_envs num_replicas max_retries retry_policy launch_kwargs
  obtain ⟨_, _, _, _, e5n, _, _⟩ := create_fields_eq name container entrypoint
    script_args script_envs (-5) (-7) retry_policy launch_kwargs
  exact ⟨e5, e6, e1, e5n⟩

theorem string_prefix_cancel {a b : String} (h : "--" ++ a = "--" ++ b) : a = b := by
  have hd := congrArg String.data h
  simp [String.data_append] at hd
  exact String.ext hd

theorem mem_kwargTokens {t : String} {p : String × PyVal} (h : t ∈ kwargTokens p) :
    t = "--" ++ p.1 ∨ t = PyVal.str p.2 := by
  rcases p with ⟨k, v⟩
  cases v with
  | pybool b => cases b <;> simp_all [kwargTokens]
  | pyint n => simp_all [kwargTokens, PyVal.str]
  | pystr s => simp_all [kwargTokens, PyVal.str]

theorem mem_flagsOf {t : String} {l : Kwargs} :
    t ∈ flagsOf l ↔ ∃ p ∈ l, t ∈ kwargTokens p := by
  induction l with
  | nil => simp [flagsOf]
  | cons hd tl ih =>
    rw [flagsOf_cons]
    simp [List.mem_append, ih]

theorem eq_of_mem_of_nodup_keys {l : Kwargs} {p q : String × PyVal}
    (hn : (l.map Prod.fst).Nodup) (hp : p ∈ l) (hq : q ∈ l) (hk : p.1 = q.1) : p = q := by
  induction l with
  | nil => cases hp
  | cons hd tl ih =>
    rw [List.map_cons, List.nodup_cons] at hn
    rcases List.mem_cons.mp hp with rfl | hp'
    · rcases List.mem_cons.mp hq with rfl | hq'
      · rfl
      · exact absurd (hk ▸ List.mem_map_of_mem Prod.fst hq') hn.1
    · rcases List.mem_cons.mp hq with rfl | hq'
      · exact absurd (hk ▸ List.mem_map_of_mem Prod.fst hp') hn.1
      · exact ih hn.2 hp' hq'

theorem lookup_eq_of_mem_of_nodup_keys {l : Kwargs} {k : String} {v : PyVal}
    (hm : (k, v) ∈ l) (hn : (l.map Prod.fst).Nodup) : List.lookup k l = some v := by
  induction l with
  | nil => cases hm
  | cons hd tl ih =>
    rw [List.map_cons, List.nodup_cons] at hn
    rw [List.lookup]
    rcases List.mem_cons.mp hm with rfl | hm'
    · simp
    · have hne : (k == hd.1) = false := by
        rw [beq_eq_false_iff_ne]
        intro he
        exact hn.1 (he ▸ List.mem_map_of_mem Prod.fst hm')
      rw [hne]
      exact ih hm' hn.2

theorem flagsOf_filter_of_empty {l : Kwargs} {k : String}
    (h : ∀ p ∈ l, p.1 = k → kwargTokens p = []) :
    flagsOf l = flagsOf (l.filter (fun p => p.1 != k)) := by
  induction l with
  | nil => rfl
  | cons hd tl ih =>
    have htl := ih fun p hp hpk => h p (List.mem_cons_of_mem hd hp) hpk
    rw [flagsOf_cons, List.filter_cons]
    by_cases hk : hd.1 = k
    · have he : kwargTokens hd = [] := h hd (List.mem_cons_self hd tl) hk
      simp [hk, he, htl]
    · simp [hk, flagsOf_cons, htl]

/-- C10: if the caller explicitly passes one of the three defaulted keys
rdzv_backend, rdzv_id or role with the boolean value False in launch_kwargs
(whose keys are dict-unique, with no other value stringifying to that flag
token and a role name distinct from it), the corresponding default is not
applied — the key still maps to False after the merge — and no token for that
key appears in the argument list at all: the flag token --<key> occurs
nowhere among the flag tokens, dropping every pair with that key leaves the
flag tokens unchanged, and the full argument list is the fixed prefix, these
flag tokens, the entrypoint token and the script args. -/
theorem explicit_false_default_key_suppresses_flag (name : String)
    (container : Container) (entrypoint : String) (script_args : Option (List String))
    (script_envs : Option (List (String × String))) (num_replicas : Int)
    (max_retries : Int) (retry_policy : RetryPolicy) (kw : Kwargs) (k : String)
    (hk : k = "rdzv_backend" ∨ k = "rdzv_id" ∨ k = "role")
    (hmem : (k, PyVal.pybool false) ∈ kw)
    (hnodup : (kw.map Prod.fst).Nodup)
    (hvals : ∀ p ∈ kw, PyVal.str p.2 ≠ "--" ++ k)
    (hname : name ≠ "--" ++ k) :
    List.lookup k (withDefaults kw name) = some (PyVal.pybool false)
    ∧ "--" ++ k ∉ flagsOf (withDefaults kw name)
    ∧ flagsOf (withDefaults kw name)
        = flagsOf ((withDefaults kw name).filter (fun p => p.1 != k))
    ∧ (create_torch_dist_role name container entrypoint script_args script_envs
          num_replicas max_retries retry_policy kw).args
        = ["-m", "torch.distributed.launch"]
          ++ flagsOf (withDefaults kw name)
          ++ [normalizeEntrypoint entrypoint]
          ++ script_args.getD [] := by
  have hhk : hasKey kw k = true := by
    unfold hasKey
    rw [List.any_eq_true]
    exact ⟨(k, PyVal.pybool false), hmem, by simp⟩
  have heq := withDefaults_eq_append_filter kw name
  have hsuffix : ∀ p ∈ ([("rdzv_backend", PyVal.pystr "etcd"),
      ("rdzv_id", PyVal.pystr app_id), ("role", PyVal.pystr name)].filter
        (fun p => !hasKey kw p.1)), p.1 ≠ k := by
    intro p hp he
    have hf := List.of_mem_filter hp
    rw [he, hhk] at hf
    simp at hf
  have huniq : ∀ p ∈ kw, p.1 = k → p = (k, PyVal.pybool false) := by
    intro p hp hpk
    exact eq_of_mem_of_nodup_keys hnodup hp hmem hpk
  refine ⟨?_, ?_, ?_, ?_⟩
  · rw [heq]
    exact lookup_append_left k (PyVal.pybool false) _ _
      (lookup_eq_of_mem_of_nodup_keys hmem hnodup)
  · intro ht
    rw [heq, flagsOf_append, List.mem_append] at ht
    rcases ht with ht | ht
    · obtain ⟨p, hp, htok⟩ := mem_flagsOf.mp ht
      by_cases hpk : p.1 = k
      · rw [huniq p hp hpk] at htok
        simp [kwargTokens] at htok
      · rcases mem_kwargTokens htok with h1 | h2
        · exact hpk (string_prefix_cancel h1).symm
        · exact hvals p hp h2.symm
    · obtain ⟨p, hp, htok⟩ := mem_flagsOf.mp ht
      have hpk : p.1 ≠ k := hsuffix p hp
      rcases mem_kwargTokens htok with h1 | h2
      · exact hpk (string_prefix_cancel h1).symm
      · have hp3 := List.mem_of_mem_filter hp
        rcases hk with rfl | rfl | rfl
        <;> simp only [List.mem_cons, List.not_mem_nil, or_false] at hp3
        <;> rcases hp3 with rfl | rfl | rfl
        <;> simp only [PyVal.str] at h2
        <;> first
          | exact absurd h2 (by decide)
          | exact hname h2.symm
  · apply flagsOf_filter_of_empty
    intro p hp hpk
    rw [heq, List.mem_append] at hp
    rcases hp with hp | hp
    · rw [huniq p hp hpk]
      rfl
    · exact absurd hpk (hsuffix p hp)
  · exact create_args_eq name container entrypoint script_args script_envs
      num_replicas max_retries retry_policy kw

/-- Witness for C10 at the claim's example: role=False yields a command with
no --role flag and no role value. -/
theorem explicit_false_default_key_suppresses_flag_witness :
    "--role" ∉ flagsOf (withDefaults [("role", PyVal.pybool false)] "n")
    ∧ (create_torch_dist_role "n" (Container.mk "img") "/abs/train.py" none none
          1 0 RetryPolicy.APPLICATION [("role", PyVal.pybool false)]).args
        = ["-m", "torch.distributed.launch", "--rdzv_backend", "etcd",
            "--rdzv_id", "${app_id}", "/abs/train.py"] := by
  obtain ⟨h1, h2, h3, h4⟩ := explicit_false_default_key_suppresses_flag "n"
    (Container.mk "img") "/abs/train.py" none none 1 0 RetryPolicy.APPLICATION
    [("role", PyVal.pybool false)] "role" (Or.inr (Or.inr rfl)) (by decide)
    (by decide) (by decide) (by decide)
  refine ⟨h2, ?_⟩
  rw [h4]
  rfl

end TorchX
